import Mathlib

/-!
Verification of the GNSS single-point-positioning solver in
`src/gnss-data-processing/observation.cpp`.

The file shallowly embeds the two pieces of code in the repository source:

* `ObservationData::ObservationData` (the RINEX epoch-record parser), and
* `ObservationRecord::computeReceiverPosition` (the iterative weighted
  least-squares solver).

The source file calls a number of routines whose implementations are not part
of the repository slice under verification (they live in other translation
units or external libraries): `<cmath>` functions (`sin`, `cos`, `asin`,
`sqrt` inside Eigen's `.norm()`, `atof`, `atoi`), Eigen's dense-matrix
`.inverse()`, `Coordinates::toNEU`, `NavigationRecord::computeSatellitePosition`,
`GpsWeekSecond`, `DateTime`, and the header constants `Reference::c`, `PI`,
`EPS`.  Following the specification, which declares these to be external
collaborators consumed through narrow interfaces, they are modelled as
parameters (`Ext`, `ParserExt`): every theorem below holds for an arbitrary
interpretation of these parameters, and the concrete evaluations instantiate
them with simple computable functions over `ℚ`.

Machine doubles are modelled by an arbitrary `LinearOrderedField`; claims
about floating-point rounding itself are outside this embedding.
-/

/- The Batteries rational-number operations are `@[irreducible]`; restore
default reducibility so that the concrete rational evaluations below close by
`decide` (kernel-checked as usual). -/
set_option allowUnsafeReducibility true
attribute [local semireducible] Rat.add Rat.mul Rat.inv Rat.sub Rat.div Rat.neg Rat.ofScientific Rat.blt

namespace Gnss

/-- A 3-component Cartesian vector, the model of Eigen's `Vector3d` and of the
ECEF contents of a `Coordinates` value. -/
structure Vec3 (K : Type) where
  x : K
  y : K
  z : K
deriving DecidableEq

/-- Componentwise difference, the model of Eigen's `operator-` on `Vector3d`. -/
def Vec3.sub {K : Type} [LinearOrderedField K] (a b : Vec3 K) : Vec3 K :=
  ⟨a.x - b.x, a.y - b.y, a.z - b.z⟩

/-- The fields of a broadcast navigation record that
`computeReceiverPosition` reads: `_OmegaDOT`, the clock polynomial
coefficients `_a0, _a1, _a2`, and the clock reference time `_Toc`.  The
orbital elements are consumed only through the external position model
(`Ext.satPos`), so they are not represented here.  `D` is the opaque
`DateTime` type. -/
structure NavigationRecord (K D : Type) where
  OmegaDOT : K
  a0 : K
  a1 : K
  a2 : K
  Toc : D
deriving DecidableEq

/-- Modelled from the spec: the external collaborators of the solver, whose
implementations are not in the verified source slice.  `sqrt`, `sin`, `cos`,
`asin` are the `<cmath>`/Eigen scalar functions; `pi`, `c`, `eps` are the
header constants `PI`, `Reference::c`, `EPS`; `gpsSecond` is
`GpsWeekSecond(t)._second`; `satPos` is
`NavigationRecord::computeSatellitePosition` (per the spec a pure function
`positionAt(navigationRecord, time) → ECEF position`; the source passes the
time by pointer); `toNEU` is `Coordinates(v).toNEU(reference)`; `inv4` is
Eigen's `.inverse()` on the 4×4 normal matrix. -/
structure Ext (K D : Type) where
  sqrt : K → K
  sin : K → K
  cos : K → K
  asin : K → K
  pi : K
  c : K
  eps : K
  gpsSecond : D → K
  satPos : NavigationRecord K D → K → Vec3 K
  toNEU : Vec3 K → Vec3 K → Vec3 K
  inv4 : (Fin 4 → Fin 4 → K) → (Fin 4 → Fin 4 → K)

/-- Eigen's `.norm()`: the square root of the sum of squared components. -/
def vnorm {K D : Type} [LinearOrderedField K] (E : Ext K D) (v : Vec3 K) : K :=
  E.sqrt (v.x ^ 2 + v.y ^ 2 + v.z ^ 2)

/-- The per-epoch observation container built by the parser and consumed
read-only by the solver (fields `_receiverTime`, `_statusFlag`, `_sumSat`,
`_listSatPRN`, `_pseudorange_C1C`, `_pseudorange_C2P`, `_phase_L1C`,
`_phase_L2P` of `ObservationRecord`). -/
structure ObservationRecord (K D : Type) where
  receiverTime : D
  statusFlag : Int
  sumSat : Int
  listSatPRN : List String
  pseudorange_C1C : List K
  pseudorange_C2P : List K
  phase_L1C : List K
  phase_L2P : List K

/-- `double const ITER_TOL = 1E-8;` -/
def ITER_TOL (K : Type) [LinearOrderedField K] : K := 1 / 10 ^ 8

/-- `double const BLUNDER_PICKER = 0.5E6;` -/
def BLUNDER_PICKER (K : Type) [LinearOrderedField K] : K := 5 * 10 ^ 5

/-- `double const CUTOFF_ELEVATION = 10.0 / 180 * PI;` -/
def CUTOFF_ELEVATION {K D : Type} [LinearOrderedField K] (E : Ext K D) : K :=
  10 / 180 * E.pi

/-- Application of the Earth-rotation (Sagnac) correction matrix
`rotationCorrection << cos a, sin a, 0, -sin a, cos a, 0, 0, 0, 1` to a
satellite position vector (`rotationCorrection * satCoord`). -/
def rotApply {K D : Type} [LinearOrderedField K] (E : Ext K D) (angle : K)
    (v : Vec3 K) : Vec3 K :=
  ⟨E.cos angle * v.x + E.sin angle * v.y,
   -(E.sin angle) * v.x + E.cos angle * v.y,
   v.z⟩

/-- The inner light-time iteration (`for (itrTime = 0; itrTime <= 100; ...)`),
as fuel recursion: fuel `n` allows `n` executions of the loop body, and
exhausted fuel is the `itrTime >= 100` early `return nullptr` (modelled as
`none`).  The state threaded through is `(satTimeF, estimatedTimeDelay)`;
the loop is entered with `satTimeF = 0` and `estimatedTimeDelay = 0.075`.
On success it returns the transmission time `satTimeF` together with the
rotation-corrected satellite position `satCoord`, both of which the source
keeps using after the loop. -/
def lightTimeIter {K D : Type} [LinearOrderedField K] (E : Ext K D)
    (closeRecord : NavigationRecord K D) (angle recTimeF recClockError : K)
    (recCoord : Vec3 K) : Nat → K → K → Option (K × Vec3 K)
  | 0, _, _ => none
  | fuel + 1, satTimeF, estimatedTimeDelay =>
    let satTimePrev := satTimeF
    let satTimeF2 := recTimeF - recClockError - estimatedTimeDelay
    let satCoord := rotApply E angle (E.satPos closeRecord satTimeF2)
    if |satTimeF2 - satTimePrev| ≤ ITER_TOL K then some (satTimeF2, satCoord)
    else
      lightTimeIter E closeRecord angle recTimeF recClockError recCoord fuel
        satTimeF2 (vnorm E (Vec3.sub satCoord recCoord) / E.c)

/-- The three solver-fatal outcomes (all collapsed to `return nullptr` in the
source; the tags record which branch produced the failure). -/
inductive SolverFailure where
  | noEphemeris
  | innerDivergence
  | insufficient
deriving DecidableEq

/-- The reason a satellite is skipped (`++countDisposed; continue;`). -/
inductive DisposeReason where
  | missingPseudorange
  | lowElevation
  | blunder
deriving DecidableEq

/-- Outcome of processing one satellite inside one outer pass: skipped
(counts toward `countDisposed`), fatal for the whole solve
(`return nullptr`), or accepted with its design-matrix row, observable and
weight. -/
inductive SatOutcome (K : Type) where
  | disposed : DisposeReason → SatOutcome K
  | fatal : SolverFailure → SatOutcome K
  | accepted : (Fin 4 → K) → K → K → SatOutcome K
deriving DecidableEq

/-- The body of `for (satIndex = 0; ...)` for a single satellite, given the
pass-constant receiver estimate `recCoord` and clock error `recClockError`
(lines 95-161 of `observation.cpp`). -/
def processSat {K D : Type} [LinearOrderedField K] (E : Ext K D)
    (nav : D → String → Option (NavigationRecord K D)) (receiverTime : D)
    (approxRecCoord recCoord : Vec3 K) (recClockError : K)
    (prn : String) (p1c : K) : SatOutcome K :=
  if p1c < E.eps then .disposed .missingPseudorange
  else
    match nav receiverTime prn with
    | none => .fatal .noEphemeris
    | some closeRecord =>
      let recTimeF := E.gpsSecond receiverTime
      let angle := closeRecord.OmegaDOT * (p1c / E.c)
      match lightTimeIter E closeRecord angle recTimeF recClockError recCoord
          100 0 (3 / 40) with
      | none => .fatal .innerDivergence
      | some st =>
        let satTimeF := st.1
        let satCoord := st.2
        let satCoordNEU := E.toNEU satCoord approxRecCoord
        let satElevation := E.asin (satCoordNEU.z / vnorm E satCoordNEU)
        if satElevation ≤ CUTOFF_ELEVATION E then .disposed .lowElevation
        else
          let rho := vnorm E (Vec3.sub recCoord satCoord)
          if BLUNDER_PICKER K < |rho - p1c| then .disposed .blunder
          else
            let aX := (recCoord.x - satCoord.x) / rho
            let aY := (recCoord.y - satCoord.y) / rho
            let aZ := (recCoord.z - satCoord.z) / rho
            let closeTocF := E.gpsSecond closeRecord.Toc
            let satClockError := closeRecord.a0
              + closeRecord.a1 * (satTimeF - closeTocF)
              + closeRecord.a2 * (satTimeF - closeTocF) ^ 2
            .accepted ![aX, aY, aZ, 1]
              (p1c - rho + E.c * satClockError)
              ((E.sin satElevation) ^ 2)

/-- Result of one full sweep over the satellites: either an early
`return nullptr` (`fatal`), or the accepted rows together with
`countDisposed`.  The source writes an accepted row at index
`satIndex - countDisposed`, which at that moment equals the number of
previously accepted satellites, and afterwards truncates the matrices to the
first `size - countDisposed` rows; accumulating the accepted rows in order
into a list is therefore exactly the system consumed by the solve. -/
inductive BuildResult (K : Type) where
  | fatal : SolverFailure → BuildResult K
  | ok : List ((Fin 4 → K) × K × K) → Nat → BuildResult K
deriving DecidableEq

/-- The satellite sweep of one outer pass over the zipped
`(_listSatPRN, _pseudorange_C1C)` pairs. -/
def buildSystem {K D : Type} [LinearOrderedField K] (E : Ext K D)
    (nav : D → String → Option (NavigationRecord K D)) (receiverTime : D)
    (approxRecCoord recCoord : Vec3 K) (recClockError : K) :
    List (String × K) → BuildResult K
  | [] => .ok [] 0
  | pr :: rest =>
    match processSat E nav receiverTime approxRecCoord recCoord recClockError
        pr.1 pr.2 with
    | .fatal r => .fatal r
    | .disposed _ =>
      match buildSystem E nav receiverTime approxRecCoord recCoord
          recClockError rest with
      | .fatal r => .fatal r
      | .ok acc cd => .ok acc (cd + 1)
    | .accepted row b w =>
      match buildSystem E nav receiverTime approxRecCoord recCoord
          recClockError rest with
      | .fatal r => .fatal r
      | .ok acc cd => .ok ((row, b, w) :: acc) cd

/-- Entry `(i, j)` of `designMat.transpose() * weightMat * designMat`, the
4×4 weighted normal matrix: `Σ over rows of w · aᵢ · aⱼ` (the weight matrix
is `weightVec.asDiagonal()`). -/
def normalMatrix {K : Type} [LinearOrderedField K]
    (rows : List ((Fin 4 → K) × K × K)) : Fin 4 → Fin 4 → K :=
  fun i j => (rows.map fun r => r.2.2 * r.1 i * r.1 j).sum

/-- Component `i` of `designMat.transpose() * weightMat * observableVec`:
`Σ over rows of w · b · aᵢ`. -/
def atwb {K : Type} [LinearOrderedField K]
    (rows : List ((Fin 4 → K) × K × K)) : Fin 4 → K :=
  fun i => (rows.map fun r => r.2.2 * r.2.1 * r.1 i).sum

/-- 4×4 matrix–vector product. -/
def mulVec4 {K : Type} [LinearOrderedField K] (M : Fin 4 → Fin 4 → K)
    (v : Fin 4 → K) : Fin 4 → K :=
  fun i => M i 0 * v 0 + M i 1 * v 1 + M i 2 * v 2 + M i 3 * v 3

/-- The weighted normal-equations solution
`(AᵗWA)⁻¹ · (Aᵗ W b)`, with the external `.inverse()`. -/
def solution {K D : Type} [LinearOrderedField K] (E : Ext K D)
    (rows : List ((Fin 4 → K) × K × K)) : Fin 4 → K :=
  mulVec4 (E.inv4 (normalMatrix rows)) (atwb rows)

/-- The mutable state of the outer Gauss–Newton loop: the receiver ECEF
estimate `recCoord` and the receiver clock error `recClockError`. -/
structure SolveState (K : Type) where
  recCoord : Vec3 K
  recClockError : K
deriving DecidableEq

/-- Outcome of one outer pass: abort the whole solve (`return nullptr`),
terminate successfully (`break`, followed by returning the just-updated
estimate), or continue with the next state. -/
inductive StepResult (K : Type) where
  | abort : SolverFailure → StepResult K
  | converged : Vec3 K → StepResult K
  | next : SolveState K → StepResult K
deriving DecidableEq

/-- One iteration of the outer loop (lines 89-186 of `observation.cpp`):
sweep the satellites, check `size - countDisposed < 4` (only when
`countDisposed > 0`, exactly as in the source), solve the weighted normal
equations, apply the first three solution components as an additive position
correction, replace the clock error by `solution[3] / c`, and test the
3-component correction norm against `ITER_TOL`. -/
def stepFn {K D : Type} [LinearOrderedField K] (E : Ext K D)
    (nav : D → String → Option (NavigationRecord K D))
    (obs : ObservationRecord K D) (approxRecCoord : Vec3 K)
    (s : SolveState K) : StepResult K :=
  match buildSystem E nav obs.receiverTime approxRecCoord s.recCoord
      s.recClockError (obs.listSatPRN.zip obs.pseudorange_C1C) with
  | .fatal r => .abort r
  | .ok rows countDisposed =>
    if 0 < countDisposed ∧ obs.listSatPRN.length - countDisposed < 4 then
      .abort .insufficient
    else
      let sol := solution E rows
      let recCoord2 : Vec3 K :=
        ⟨s.recCoord.x + sol 0, s.recCoord.y + sol 1, s.recCoord.z + sol 2⟩
      if vnorm E ⟨sol 0, sol 1, sol 2⟩ < ITER_TOL K then .converged recCoord2
      else .next ⟨recCoord2, sol 3 / E.c⟩

/-- The outer loop (`for (itrAdjust = 0; itrAdjust <= 100; ...)`), again as
fuel recursion: exhausted fuel is the `itrAdjust >= 100` fatal
`return nullptr`. -/
def outerLoop {K D : Type} [LinearOrderedField K] (E : Ext K D)
    (nav : D → String → Option (NavigationRecord K D))
    (obs : ObservationRecord K D) (approxRecCoord : Vec3 K) :
    Nat → SolveState K → Option (Vec3 K)
  | 0, _ => none
  | fuel + 1, s =>
    match stepFn E nav obs approxRecCoord s with
    | .abort _ => none
    | .converged v => some v
    | .next s2 => outerLoop E nav obs approxRecCoord fuel s2

/-- `ObservationRecord::computeReceiverPosition`: start from the approximate
coordinate with zero clock error and run at most 100 outer iterations;
`none` models the `nullptr` failure return. -/
def computeReceiverPosition {K D : Type} [LinearOrderedField K] (E : Ext K D)
    (nav : D → String → Option (NavigationRecord K D))
    (obs : ObservationRecord K D) (approxRecCoord : Vec3 K) :
    Option (Vec3 K) :=
  outerLoop E nav obs approxRecCoord 100 ⟨approxRecCoord, 0⟩

/-- The sequence of outer-loop states: `iterStates … k` is `some s` exactly
when the first `k` outer iterations all ended in `.next` (no abort, no
convergence) and left the solver in state `s`. -/
def iterStates {K D : Type} [LinearOrderedField K] (E : Ext K D)
    (nav : D → String → Option (NavigationRecord K D))
    (obs : ObservationRecord K D) (approxRecCoord : Vec3 K) :
    Nat → Option (SolveState K)
  | 0 => some ⟨approxRecCoord, 0⟩
  | k + 1 =>
    match iterStates E nav obs approxRecCoord k with
    | none => none
    | some s =>
      match stepFn E nav obs approxRecCoord s with
      | .next s2 => some s2
      | _ => none

/-- The unbounded trajectory of the inner light-time iteration state
`(satTimeF, estimatedTimeDelay)`, ignoring the stopping test:
`innerSeq … 0 = (0, 0.075)` and each step sets
`satTimeF = recTimeF - recClockError - estimatedTimeDelay` and re-estimates
the delay as `‖rotationCorrection × satPos(satTimeF) - recCoord‖ / c`. -/
def innerSeq {K D : Type} [LinearOrderedField K] (E : Ext K D)
    (closeRecord : NavigationRecord K D) (angle recTimeF recClockError : K)
    (recCoord : Vec3 K) : Nat → K × K
  | 0 => (0, 3 / 40)
  | k + 1 =>
    let prev := innerSeq E closeRecord angle recTimeF recClockError recCoord k
    let t := recTimeF - recClockError - prev.2
    let satCoord := rotApply E angle (E.satPos closeRecord t)
    (t, vnorm E (Vec3.sub satCoord recCoord) / E.c)

/-- Whether a per-satellite outcome aborts the whole solve. -/
def SatOutcome.isFatal {K : Type} : SatOutcome K → Bool
  | .fatal _ => true
  | _ => false


/-- The per-satellite data kept by an accepted row of the sweep, `none` for a
disposed or fatal satellite. -/
def acceptedOf {K D : Type} [LinearOrderedField K] (E : Ext K D)
    (nav : D → String → Option (NavigationRecord K D)) (receiverTime : D)
    (approxRecCoord recCoord : Vec3 K) (recClockError : K)
    (pr : String × K) : Option ((Fin 4 → K) × K × K) :=
  match processSat E nav receiverTime approxRecCoord recCoord recClockError
      pr.1 pr.2 with
  | .accepted row b w => some (row, b, w)
  | _ => none

/-! ### The epoch-record parser (`ObservationData::ObservationData`, lines 33-70) -/

/-- C++ `line.substr(pos, len)`: the characters at offsets
`[pos, pos + len)`.  (The C++ version throws when `pos` exceeds the length;
the constructor only applies it with `pos > 0` to lines that begin with the
supported system letter, and the claims do not concern malformed short
lines, so the total `List`-based model is used.) -/
def substr (s : String) (pos len : Nat) : String :=
  String.mk ((s.data.drop pos).take len)

/-- The supported satellite-system identifier (`"G"`, GPS). -/
def gStr : String := "G"

/-- Modelled from the spec: the external C-library and time-system routines
used by the parser (`atoi`, `atof`, and the `DateTime` constructor), whose
implementations are not in the verified source slice. -/
structure ParserExt (K D : Type) where
  atoi : String → Int
  atof : String → K
  mkDateTime : Int → Int → Int → Int → Int → Int → D

/-- The four parallel per-satellite sequences accumulated by the epoch
loop, plus the identifier list. -/
structure SatLists (K : Type) where
  listSatPRN : List String
  pseudorange_C1C : List K
  pseudorange_C2P : List K
  phase_L1C : List K
  phase_L2P : List K

/-- The satellite-line loop `for (int i = 0; i < record->_sumSat; ++i)`
(lines 52-63): read one line per declared satellite, skip lines that do not
begin with `"G"`, and push the identifier and the four fixed-width numeric
fields onto the parallel sequences.  Reading past the end of the input
yields an empty line (as `getline` does on a stream at EOF), which is
skipped. -/
def readSats {K D : Type} [LinearOrderedField K] (P : ParserExt K D) :
    Nat → List String → SatLists K × List String
  | 0, lines => (⟨[], [], [], [], []⟩, lines)
  | n + 1, lines =>
    match lines with
    | [] => readSats P n []
    | line :: rest =>
      if substr line 0 1 ≠ gStr then readSats P n rest
      else
        let r := readSats P n rest
        (⟨substr line 0 3 :: r.1.listSatPRN,
          P.atof (substr line 3 14) :: r.1.pseudorange_C1C,
          P.atof (substr line 19 14) :: r.1.pseudorange_C2P,
          P.atof (substr line 51 14) :: r.1.phase_L1C,
          P.atof (substr line 67 14) :: r.1.phase_L2P⟩, r.2)

/-- Construction of one `ObservationRecord` from its epoch header line and
the following input lines (lines 40-63 of `observation.cpp`); returns the
record and the unconsumed input. -/
def parseEpochRecord {K D : Type} [LinearOrderedField K] (P : ParserExt K D)
    (line : String) (lines : List String) :
    ObservationRecord K D × List String :=
  let year := P.atoi (substr line 1 5)
  let month := P.atoi (substr line 6 3)
  let day := P.atoi (substr line 9 3)
  let hour := P.atoi (substr line 12 3)
  let minute := P.atoi (substr line 15 3)
  let second := P.atoi (substr line 18 11)
  let statusFlag := P.atoi (substr line 29 3)
  let sumSat := P.atoi (substr line 32 3)
  let r := readSats P sumSat.toNat lines
  ({ receiverTime := P.mkDateTime year month day hour minute second
     statusFlag := statusFlag
     sumSat := sumSat
     listSatPRN := r.1.listSatPRN
     pseudorange_C1C := r.1.pseudorange_C1C
     pseudorange_C2P := r.1.pseudorange_C2P
     phase_L1C := r.1.phase_L1C
     phase_L2P := r.1.phase_L2P }, r.2)

/-- Modelled from the spec's words, for comparison with `lightTimeIter`:
the same light-time iteration, but stopping only when the transmission-time
estimate "changes by less than 1e-8 s between iterations" — a strict
inequality, where the source stops at `fabs(...) <= ITER_TOL`. -/
def lightTimeIterStrict {K D : Type} [LinearOrderedField K] (E : Ext K D)
    (closeRecord : NavigationRecord K D) (angle recTimeF recClockError : K)
    (recCoord : Vec3 K) : Nat → K → K → Option (K × Vec3 K)
  | 0, _, _ => none
  | fuel + 1, satTimeF, estimatedTimeDelay =>
    let satTimePrev := satTimeF
    let satTimeF2 := recTimeF - recClockError - estimatedTimeDelay
    let satCoord := rotApply E angle (E.satPos closeRecord satTimeF2)
    if |satTimeF2 - satTimePrev| < ITER_TOL K then some (satTimeF2, satCoord)
    else
      lightTimeIterStrict E closeRecord angle recTimeF recClockError recCoord
        fuel satTimeF2 (vnorm E (Vec3.sub satCoord recCoord) / E.c)

/-! ### Concrete interpretations of the external parameters

The remaining definitions are not translations of repository code: they are
concrete computable interpretations of the external parameters (`Ext`) and
concrete observation records over `ℚ` (with `Unit` standing for the opaque
`DateTime`), used to evaluate the embedded solver on explicit inputs. -/

/-- Fuelled bisection for an integer square root (monotone bisection on
`[lo, hi)`; 200 halvings are ample for every number occurring below). -/
def isqrtAux (n : Nat) : Nat → Nat → Nat → Nat
  | 0, lo, _ => lo
  | fuel + 1, lo, hi =>
    let mid := (lo + hi) / 2
    if mid = lo then lo
    else if mid * mid ≤ n then isqrtAux n fuel mid hi
    else isqrtAux n fuel lo mid

/-- Integer square root by bisection (exact on perfect squares). -/
def isqrt (n : Nat) : Nat := isqrtAux n 200 0 (n + 1)

/-- A computable square-root interpretation over `ℚ`, exact on squares of
rationals whose numerator and denominator are perfect squares. -/
def qSqrt (u : ℚ) : ℚ := (isqrt u.num.toNat : ℚ) / (isqrt u.den : ℚ)

/-- A sine interpretation that vanishes at `0` (so that a zero Sagnac angle
gives the identity rotation) and is `1` elsewhere. -/
def mSin (x : ℚ) : ℚ := if x = 0 then 0 else 1

/-- A navigation record with zero rotation rate and zero clock polynomial. -/
def recM : NavigationRecord ℚ Unit := ⟨0, 0, 0, 0, ()⟩

/-- An ephemeris lookup that finds `recM` for every satellite. -/
def navM : Unit → String → Option (NavigationRecord ℚ Unit) :=
  fun _ _ => some recM

/-- An ephemeris lookup that never finds a record. -/
def navNone : Unit → String → Option (NavigationRecord ℚ Unit) :=
  fun _ _ => none

/-- A matrix-inverse interpretation returning the constant matrix whose only
nonzero entry is `-1/10` in the upper-left corner. -/
def inv4A : (Fin 4 → Fin 4 → ℚ) → (Fin 4 → Fin 4 → ℚ) :=
  fun _ i j => if i = 0 ∧ j = 0 then -(1 / 10) else 0

/-- The base interpretation of the external parameters: receiver GPS second
10, speed of light `40/3`, `EPS = 0`, satellites fixed at `(1/2, 0, 0)`,
every NEU conversion pointing straight up. -/
def mExtA : Ext ℚ Unit where
  sqrt := qSqrt
  sin := mSin
  cos := fun _ => 1
  asin := fun _ => 1
  pi := 3
  c := 40 / 3
  eps := 0
  gpsSecond := fun _ => 10
  satPos := fun _ _ => ⟨1 / 2, 0, 0⟩
  toNEU := fun _ _ => ⟨0, 0, 1⟩
  inv4 := inv4A

/-- The zero vector (used both as approximate coordinate and as origin). -/
def v0 : Vec3 ℚ := ⟨0, 0, 0⟩

/-- Satellite identifiers. -/
def g01 : String := "G01"

/-- A second satellite identifier. -/
def g02 : String := "G02"

/-- An epoch with four identical usable GPS satellites (pseudorange 3). -/
def obsA : ObservationRecord ℚ Unit :=
  { receiverTime := ()
    statusFlag := 0
    sumSat := 4
    listSatPRN := [g01, g01, g01, g01]
    pseudorange_C1C := [3, 3, 3, 3]
    pseudorange_C2P := [0, 0, 0, 0]
    phase_L1C := [0, 0, 0, 0]
    phase_L2P := [0, 0, 0, 0] }

/-- An epoch whose first satellite is `G01` and whose other three satellites
are `G02`. -/
def obsC2 : ObservationRecord ℚ Unit :=
  { obsA with listSatPRN := [g01, g02, g02, g02] }

/-- An ephemeris lookup with records for every satellite except `G01`. -/
def navC2 : Unit → String → Option (NavigationRecord ℚ Unit) :=
  fun _ s => if s = g01 then none else some recM

/-- An epoch with a single usable satellite. -/
def obsB : ObservationRecord ℚ Unit :=
  { receiverTime := ()
    statusFlag := 0
    sumSat := 1
    listSatPRN := [g01]
    pseudorange_C1C := [3]
    pseudorange_C2P := [0]
    phase_L1C := [0]
    phase_L2P := [0] }

/-- External parameters under which the light-time iteration never settles:
receiver GPS second 0, speed of light 1, and a satellite position model
`t ↦ (1 - t, 0, 0)` that pushes the transmission-time estimate down by one
second every iteration. -/
def extB : Ext ℚ Unit :=
  { mExtA with
    c := 1
    gpsSecond := fun _ => 0
    satPos := fun _ t => ⟨1 - t, 0, 0⟩ }

/-- External parameters whose elevation interpretation is constantly zero,
below the 10-degree cutoff. -/
def extC4 : Ext ℚ Unit := { mExtA with asin := fun _ => 0 }

/-- External parameters with a positive missing-value epsilon. -/
def extC10 : Ext ℚ Unit := { mExtA with eps := 1 }

/-- External parameters whose matrix-inverse interpretation is the zero
matrix, making every normal-equations solution the zero correction. -/
def extC1 : Ext ℚ Unit := { mExtA with inv4 := fun _ _ _ => 0 }

/-- An epoch with exactly three identical usable GPS satellites. -/
def obsC1 : ObservationRecord ℚ Unit :=
  { obsA with
    sumSat := 3
    listSatPRN := [g01, g01, g01]
    pseudorange_C1C := [3, 3, 3]
    pseudorange_C2P := [0, 0, 0]
    phase_L1C := [0, 0, 0]
    phase_L2P := [0, 0, 0] }

/-- External parameters (speed of light 1) whose satellite position model
makes the transmission-time estimate change by exactly `1e-8` seconds at the
second inner iteration and by `1e-9` at the third. -/
def ext6 : Ext ℚ Unit :=
  { mExtA with
    c := 1
    satPos := fun _ t =>
      ⟨if t = 397 / 40 then 7499999 / 100000000
        else if t = 992500001 / 100000000 then 74999991 / 1000000000
        else 1, 0, 0⟩ }

section InnerLemmas

variable {K D : Type} [LinearOrderedField K] (E : Ext K D)
variable (cr : NavigationRecord K D) (angle recTimeF recClockError : K)
variable (recCoord : Vec3 K)

/-- Unfolding the inner loop body along the state trajectory `innerSeq`. -/
theorem lightTimeIter_step (fuel k : Nat) :
    lightTimeIter E cr angle recTimeF recClockError recCoord (fuel + 1)
      (innerSeq E cr angle recTimeF recClockError recCoord k).1
      (innerSeq E cr angle recTimeF recClockError recCoord k).2 =
    if |(innerSeq E cr angle recTimeF recClockError recCoord (k + 1)).1 -
        (innerSeq E cr angle recTimeF recClockError recCoord k).1| ≤ ITER_TOL K
    then some ((innerSeq E cr angle recTimeF recClockError recCoord (k + 1)).1,
      rotApply E angle (E.satPos cr
        (innerSeq E cr angle recTimeF recClockError recCoord (k + 1)).1))
    else lightTimeIter E cr angle recTimeF recClockError recCoord fuel
      (innerSeq E cr angle recTimeF recClockError recCoord (k + 1)).1
      (innerSeq E cr angle recTimeF recClockError recCoord (k + 1)).2 := rfl

/-- If the stopping test fails at each of the next `fuel` iterations, the
inner loop exhausts its fuel and fails. -/
theorem lightTimeIter_none_of_no_hit :
    ∀ (fuel k : Nat),
      (∀ j, j < fuel →
        ¬ (|(innerSeq E cr angle recTimeF recClockError recCoord (k + j + 1)).1 -
            (innerSeq E cr angle recTimeF recClockError recCoord (k + j)).1| ≤ ITER_TOL K)) →
      lightTimeIter E cr angle recTimeF recClockError recCoord fuel
        (innerSeq E cr angle recTimeF recClockError recCoord k).1
        (innerSeq E cr angle recTimeF recClockError recCoord k).2 = none := by
  intro fuel
  induction fuel with
  | zero => intro k _; rfl
  | succ fuel ih =>
    intro k h
    rw [lightTimeIter_step]
    rw [if_neg (by simpa using h 0 (Nat.succ_pos fuel))]
    exact ih (k + 1) (fun j hj => by
      have e1 : k + 1 + j = k + (j + 1) := by omega
      rw [e1]
      exact h (j + 1) (by omega))

/-- The inner loop returns `some (t, sc)` exactly when the stopping test
first succeeds at some step `k + j` within the fuel, and then `t` is the
transmission time of that iteration and `sc` the rotation-corrected
satellite position computed from it. -/
theorem lightTimeIter_some_iff :
    ∀ (fuel k : Nat) (t : K) (sc : Vec3 K),
      lightTimeIter E cr angle recTimeF recClockError recCoord fuel
        (innerSeq E cr angle recTimeF recClockError recCoord k).1
        (innerSeq E cr angle recTimeF recClockError recCoord k).2 = some (t, sc) ↔
      ∃ j, j < fuel ∧
        (∀ m, m < j →
          ¬ (|(innerSeq E cr angle recTimeF recClockError recCoord (k + m + 1)).1 -
              (innerSeq E cr angle recTimeF recClockError recCoord (k + m)).1| ≤ ITER_TOL K)) ∧
        |(innerSeq E cr angle recTimeF recClockError recCoord (k + j + 1)).1 -
          (innerSeq E cr angle recTimeF recClockError recCoord (k + j)).1| ≤ ITER_TOL K ∧
        t = (innerSeq E cr angle recTimeF recClockError recCoord (k + j + 1)).1 ∧
        sc = rotApply E angle (E.satPos cr
          (innerSeq E cr angle recTimeF recClockError recCoord (k + j + 1)).1) := by
  intro fuel
  induction fuel with
  | zero =>
    intro k t sc
    constructor
    · intro h; exact absurd h (by simp [lightTimeIter])
    · rintro ⟨j, hj, -⟩; omega
  | succ fuel ih =>
    intro k t sc
    rw [lightTimeIter_step]
    by_cases hhit :
        |(innerSeq E cr angle recTimeF recClockError recCoord (k + 1)).1 -
          (innerSeq E cr angle recTimeF recClockError recCoord k).1| ≤ ITER_TOL K
    · rw [if_pos hhit]
      constructor
      · intro h
        refine ⟨0, Nat.succ_pos fuel, by omega, by simpa using hhit, ?_, ?_⟩
        · simpa using (congrArg Prod.fst (Option.some.inj h)).symm
        · simpa using (congrArg Prod.snd (Option.some.inj h)).symm
      · rintro ⟨j, hj, hmiss, hstop, ht, hsc⟩
        have hj0 : j = 0 := by
          by_contra hne
          exact (hmiss 0 (Nat.pos_of_ne_zero hne)) (by simpa using hhit)
        subst hj0
        simp only [Nat.add_zero] at ht hsc
        rw [ht, hsc]
    · rw [if_neg hhit]
      rw [ih (k + 1) t sc]
      constructor
      · rintro ⟨j, hj, hmiss, hstop, ht, hsc⟩
        refine ⟨j + 1, by omega, ?_, ?_, ?_, ?_⟩
        · intro m hm
          match m with
          | 0 => simpa using hhit
          | m + 1 =>
            have e1 : k + (m + 1) = k + 1 + m := by omega
            rw [e1]
            exact hmiss m (by omega)
        · have e1 : k + (j + 1) = k + 1 + j := by omega
          rw [e1]; exact hstop
        · have e1 : k + (j + 1) + 1 = k + 1 + j + 1 := by omega
          rw [e1]; exact ht
        · have e1 : k + (j + 1) + 1 = k + 1 + j + 1 := by omega
          rw [e1]; exact hsc
      · rintro ⟨j, hj, hmiss, hstop, ht, hsc⟩
        have hj0 : j ≠ 0 := by
          rintro rfl
          exact hhit (by simpa using hstop)
        obtain ⟨j, rfl⟩ : ∃ j', j = j' + 1 := ⟨j - 1, by omega⟩
        refine ⟨j, by omega, ?_, ?_, ?_, ?_⟩
        · intro m hm
          have e1 : k + 1 + m = k + (m + 1) := by omega
          rw [e1]
          exact hmiss (m + 1) (by omega)
        · have e1 : k + 1 + j = k + (j + 1) := by omega
          rw [e1]; exact hstop
        · have e1 : k + 1 + j + 1 = k + (j + 1) + 1 := by omega
          rw [e1]; exact ht
        · have e1 : k + 1 + j + 1 = k + (j + 1) + 1 := by omega
          rw [e1]; exact hsc

end InnerLemmas

section OuterLemmas

variable {K D : Type} [LinearOrderedField K] (E : Ext K D)
variable (nav : D → String → Option (NavigationRecord K D))
variable (obs : ObservationRecord K D) (approxRecCoord : Vec3 K)

/-- The definitional unfolding of `outerLoop` with positive fuel. -/
theorem outerLoop_succ (fuel : Nat) (s : SolveState K) :
    outerLoop E nav obs approxRecCoord (fuel + 1) s =
      match stepFn E nav obs approxRecCoord s with
      | .abort _ => none
      | .converged v => some v
      | .next s2 => outerLoop E nav obs approxRecCoord fuel s2 := rfl

/-- The definitional unfolding of `iterStates` at a successor index. -/
theorem iterStates_succ (k : Nat) :
    iterStates E nav obs approxRecCoord (k + 1) =
      match iterStates E nav obs approxRecCoord k with
      | none => none
      | some s =>
        match stepFn E nav obs approxRecCoord s with
        | .next s2 => some s2
        | _ => none := rfl

/-- If the first `k` outer iterations all continue, running the loop from the
start with `k + m` fuel is running it from the reached state with `m` fuel. -/
theorem outerLoop_shift :
    ∀ (k m : Nat) (s : SolveState K),
      iterStates E nav obs approxRecCoord k = some s →
      outerLoop E nav obs approxRecCoord (k + m) ⟨approxRecCoord, 0⟩ =
        outerLoop E nav obs approxRecCoord m s := by
  intro k
  induction k with
  | zero =>
    intro m s h
    obtain rfl : (⟨approxRecCoord, 0⟩ : SolveState K) = s := Option.some.inj h
    rw [Nat.zero_add]
  | succ k ih =>
    intro m s h
    rw [iterStates_succ] at h
    cases hk : iterStates E nav obs approxRecCoord k with
    | none => simp [hk] at h
    | some s0 =>
      cases hs : stepFn E nav obs approxRecCoord s0 with
      | abort r => simp [hk, hs] at h
      | converged v => simp [hk, hs] at h
      | next s1 =>
        simp only [hk, hs] at h
        obtain rfl : s1 = s := by simpa using h
        have e1 : k + 1 + m = k + (m + 1) := by omega
        rw [e1, ih (m + 1) s0 hk, outerLoop_succ, hs]

/-- An aborting pass makes the loop fail regardless of remaining fuel. -/
theorem outerLoop_none_of_abort (fuel : Nat) (s : SolveState K) (r : SolverFailure)
    (h : stepFn E nav obs approxRecCoord s = .abort r) :
    outerLoop E nav obs approxRecCoord (fuel + 1) s = none := by
  rw [outerLoop_succ, h]

/-- A fatal first sweep aborts `computeReceiverPosition` immediately. -/
theorem compute_none_of_build_fatal (r : SolverFailure)
    (h : buildSystem E nav obs.receiverTime approxRecCoord approxRecCoord 0
      (obs.listSatPRN.zip obs.pseudorange_C1C) = .fatal r) :
    computeReceiverPosition E nav obs approxRecCoord = none := by
  have habort : stepFn E nav obs approxRecCoord ⟨approxRecCoord, 0⟩ = .abort r := by
    unfold stepFn
    rw [h]
  exact outerLoop_none_of_abort E nav obs approxRecCoord 99 _ r habort

/-- The definitional unfolding of the satellite sweep at a cons cell. -/
theorem buildSystem_cons (receiverTime : D) (recCoord : Vec3 K)
    (recClockError : K) (pr : String × K) (rest : List (String × K)) :
    buildSystem E nav receiverTime approxRecCoord recCoord recClockError
      (pr :: rest) =
      match processSat E nav receiverTime approxRecCoord recCoord recClockError
          pr.1 pr.2 with
      | .fatal r => .fatal r
      | .disposed _ =>
        match buildSystem E nav receiverTime approxRecCoord recCoord
            recClockError rest with
        | .fatal r => .fatal r
        | .ok acc cd => .ok acc (cd + 1)
      | .accepted row b w =>
        match buildSystem E nav receiverTime approxRecCoord recCoord
            recClockError rest with
        | .fatal r => .fatal r
        | .ok acc cd => .ok ((row, b, w) :: acc) cd := rfl

/-- The satellite sweep aborts with the first fatal satellite: if every
satellite before `pr` is non-fatal and `pr` is fatal, the sweep is fatal with
`pr`'s failure. -/
theorem buildSystem_fatal_of (receiverTime : D) (recCoord : Vec3 K)
    (recClockError : K) :
    ∀ (l1 : List (String × K)) (pr : String × K) (l2 : List (String × K))
      (r : SolverFailure),
      (∀ q ∈ l1, (processSat E nav receiverTime approxRecCoord recCoord
        recClockError q.1 q.2).isFatal = false) →
      processSat E nav receiverTime approxRecCoord recCoord recClockError
        pr.1 pr.2 = .fatal r →
      buildSystem E nav receiverTime approxRecCoord recCoord recClockError
        (l1 ++ pr :: l2) = .fatal r := by
  intro l1
  induction l1 with
  | nil =>
    intro pr l2 r _ hfatal
    rw [List.nil_append, buildSystem_cons, hfatal]
  | cons q l1 ih =>
    intro pr l2 r hok hfatal
    have hq := hok q (List.mem_cons_self q l1)
    have hrest := ih pr l2 r (fun q' hq' => hok q' (List.mem_cons_of_mem q hq')) hfatal
    rw [List.cons_append, buildSystem_cons]
    cases hp : processSat E nav receiverTime approxRecCoord recCoord
        recClockError q.1 q.2 with
    | fatal r' => rw [hp] at hq; simp [SatOutcome.isFatal] at hq
    | disposed d => rw [hrest]
    | accepted row b w => rw [hrest]

end OuterLemmas

/-- Retained identifiers are the first three characters of a line whose
first character is the system letter, so their own first character is the
system letter. -/
theorem substr_three_one (line : String) :
    substr (substr line 0 3) 0 1 = substr line 0 1 := by
  simp [substr, List.take_take]

/-- The sweep invariant of the satellite-line loop: parallel sequences stay
the same length, at most one satellite is retained per declared satellite,
and every retained identifier begins with the supported system letter. -/
theorem readSats_invariant {K D : Type} [LinearOrderedField K]
    (P : ParserExt K D) :
    ∀ (n : Nat) (lines : List String),
      ((readSats P n lines).1.pseudorange_C1C.length =
          (readSats P n lines).1.listSatPRN.length ∧
        (readSats P n lines).1.pseudorange_C2P.length =
          (readSats P n lines).1.listSatPRN.length ∧
        (readSats P n lines).1.phase_L1C.length =
          (readSats P n lines).1.listSatPRN.length ∧
        (readSats P n lines).1.phase_L2P.length =
          (readSats P n lines).1.listSatPRN.length) ∧
      (readSats P n lines).1.listSatPRN.length ≤ n ∧
      (∀ prn ∈ (readSats P n lines).1.listSatPRN, substr prn 0 1 = gStr) := by
  intro n
  induction n with
  | zero => intro lines; simp [readSats]
  | succ n ih =>
    intro lines
    match lines with
    | [] =>
      have h := ih []
      simp only [readSats]
      exact ⟨h.1, by omega, h.2.2⟩
    | line :: rest =>
      by_cases hg : substr line 0 1 ≠ gStr
      · have h := ih rest
        simp only [readSats, if_pos hg]
        exact ⟨h.1, by omega, h.2.2⟩
      · have h := ih rest
        simp only [readSats, if_neg hg]
        push_neg at hg
        refine ⟨⟨?_, ?_, ?_, ?_⟩, ?_, ?_⟩
        · simpa using h.1.1
        · simpa using h.1.2.1
        · simpa using h.1.2.2.1
        · simpa using h.1.2.2.2
        · have := h.2.1; simpa using by omega
        · intro prn hprn
          rcases List.mem_cons.mp (by simpa using hprn) with heq | hmem
          · rw [heq, substr_three_one, hg]
          · exact h.2.2 prn hmem

/-- C9: after constructing an Epoch Record from the observation file, the
per-satellite parallel sequences (identifiers, the two pseudoranges, the two
phases) all have the same length; every retained identifier begins with the
supported system letter `"G"` (other lines are skipped); and the retained
count is at most the declared satellite count `_sumSat`. -/
theorem c9_epoch_record_invariants {K D : Type} [LinearOrderedField K]
    (P : ParserExt K D) (line : String) (lines : List String) :
    ((parseEpochRecord P line lines).1.pseudorange_C1C.length =
        (parseEpochRecord P line lines).1.listSatPRN.length ∧
      (parseEpochRecord P line lines).1.pseudorange_C2P.length =
        (parseEpochRecord P line lines).1.listSatPRN.length ∧
      (parseEpochRecord P line lines).1.phase_L1C.length =
        (parseEpochRecord P line lines).1.listSatPRN.length ∧
      (parseEpochRecord P line lines).1.phase_L2P.length =
        (parseEpochRecord P line lines).1.listSatPRN.length) ∧
    (∀ prn ∈ (parseEpochRecord P line lines).1.listSatPRN,
      substr prn 0 1 = gStr) ∧
    (parseEpochRecord P line lines).1.listSatPRN.length ≤
      (parseEpochRecord P line lines).1.sumSat.toNat := by
  have h := readSats_invariant P (P.atoi (substr line 32 3)).toNat lines
  exact ⟨h.1, h.2.2, h.2.1⟩

/-! ### The filtering and row-assembly claims -/

section ClaimLemmas

variable {K D : Type} [LinearOrderedField K] (E : Ext K D)
variable (nav : D → String → Option (NavigationRecord K D))
variable (receiverTime : D) (approxRecCoord recCoord : Vec3 K)
variable (recClockError : K)

/-- The satellite sweep at a cons cell, head satellite given by components. -/
theorem buildSystem_cons2 (prn : String) (p1c : K) (rest : List (String × K)) :
    buildSystem E nav receiverTime approxRecCoord recCoord recClockError
      ((prn, p1c) :: rest) =
      match processSat E nav receiverTime approxRecCoord recCoord recClockError
          prn p1c with
      | .fatal r => .fatal r
      | .disposed _ =>
        match buildSystem E nav receiverTime approxRecCoord recCoord
            recClockError rest with
        | .fatal r => .fatal r
        | .ok acc cd => .ok acc (cd + 1)
      | .accepted row b w =>
        match buildSystem E nav receiverTime approxRecCoord recCoord
            recClockError rest with
        | .fatal r => .fatal r
        | .ok acc cd => .ok ((row, b, w) :: acc) cd := rfl

/-- After a usable pseudorange, a found navigation record and a converged
light-time iteration, satellite processing is the elevation test, then the
blunder test, then acceptance with the populated row, observable and
weight. -/
theorem processSat_after_iter (prn : String) (p1c : K)
    (cr : NavigationRecord K D) (t : K) (sc : Vec3 K)
    (hp : ¬ (p1c < E.eps))
    (hnav : nav receiverTime prn = some cr)
    (hiter : lightTimeIter E cr (cr.OmegaDOT * (p1c / E.c))
      (E.gpsSecond receiverTime) recClockError recCoord 100 0 (3 / 40) =
      some (t, sc)) :
    processSat E nav receiverTime approxRecCoord recCoord recClockError
      prn p1c =
      if E.asin ((E.toNEU sc approxRecCoord).z /
          vnorm E (E.toNEU sc approxRecCoord)) ≤ CUTOFF_ELEVATION E then
        .disposed .lowElevation
      else if BLUNDER_PICKER K < |vnorm E (Vec3.sub recCoord sc) - p1c| then
        .disposed .blunder
      else
        .accepted
          ![(recCoord.x - sc.x) / vnorm E (Vec3.sub recCoord sc),
            (recCoord.y - sc.y) / vnorm E (Vec3.sub recCoord sc),
            (recCoord.z - sc.z) / vnorm E (Vec3.sub recCoord sc), 1]
          (p1c - vnorm E (Vec3.sub recCoord sc) +
            E.c * (cr.a0 + cr.a1 * (t - E.gpsSecond cr.Toc) +
              cr.a2 * (t - E.gpsSecond cr.Toc) ^ 2))
          ((E.sin (E.asin ((E.toNEU sc approxRecCoord).z /
            vnorm E (E.toNEU sc approxRecCoord)))) ^ 2) := by
  simp only [processSat, hnav, hiter, if_neg hp]

/-- A disposed head satellite contributes nothing but a disposed-count
increment to the sweep. -/
theorem buildSystem_disposed_head (prn : String) (p1c : K) (d : DisposeReason)
    (hd : processSat E nav receiverTime approxRecCoord recCoord recClockError
      prn p1c = .disposed d) (rest : List (String × K)) :
    buildSystem E nav receiverTime approxRecCoord recCoord recClockError
      ((prn, p1c) :: rest) =
      match buildSystem E nav receiverTime approxRecCoord recCoord
          recClockError rest with
      | .fatal r => .fatal r
      | .ok acc cd => .ok acc (cd + 1) := by
  rw [buildSystem_cons2, hd]

/-- C4: in any outer pass (any receiver estimate `recCoord` and clock
error), a satellite whose elevation — computed from the NEU conversion of
the corrected satellite position about the fixed approximate coordinate
`approxRecCoord`, not the iterating estimate — is at most the 10-degree
cutoff is disposed as low-elevation, regardless of its pseudorange quality,
and contributes no row to the assembled design matrix, observable vector or
weight vector of the sweep: it only increments the disposed count. -/
theorem c4_low_elevation_disposed (prn : String) (p1c : K)
    (cr : NavigationRecord K D) (t : K) (sc : Vec3 K)
    (hp : ¬ (p1c < E.eps))
    (hnav : nav receiverTime prn = some cr)
    (hiter : lightTimeIter E cr (cr.OmegaDOT * (p1c / E.c))
      (E.gpsSecond receiverTime) recClockError recCoord 100 0 (3 / 40) =
      some (t, sc))
    (helev : E.asin ((E.toNEU sc approxRecCoord).z /
      vnorm E (E.toNEU sc approxRecCoord)) ≤ CUTOFF_ELEVATION E) :
    processSat E nav receiverTime approxRecCoord recCoord recClockError
      prn p1c = .disposed .lowElevation ∧
    ∀ rest, buildSystem E nav receiverTime approxRecCoord recCoord
      recClockError ((prn, p1c) :: rest) =
      match buildSystem E nav receiverTime approxRecCoord recCoord
          recClockError rest with
      | .fatal r => .fatal r
      | .ok acc cd => .ok acc (cd + 1) := by
  have h1 : processSat E nav receiverTime approxRecCoord recCoord
      recClockError prn p1c = .disposed .lowElevation := by
    rw [processSat_after_iter E nav receiverTime approxRecCoord recCoord
      recClockError prn p1c cr t sc hp hnav hiter, if_pos helev]
  exact ⟨h1, buildSystem_disposed_head E nav receiverTime approxRecCoord
    recCoord recClockError prn p1c .lowElevation h1⟩

/-- C5: a satellite whose geometric range (from the current receiver
estimate to the corrected satellite position) differs from its raw
pseudorange by more than `0.5e6` is disposed as a blunder and contributes
no row; and whenever the sweep succeeds, the compacted rows are exactly the
accepted satellites' rows in their original relative order, contiguous from
row 0 (with the disposed count making up the difference in length). -/
theorem c5_blunder_and_compaction :
    (∀ (prn : String) (p1c : K) (cr : NavigationRecord K D) (t : K)
      (sc : Vec3 K),
      ¬ (p1c < E.eps) →
      nav receiverTime prn = some cr →
      lightTimeIter E cr (cr.OmegaDOT * (p1c / E.c))
        (E.gpsSecond receiverTime) recClockError recCoord 100 0 (3 / 40) =
        some (t, sc) →
      ¬ (E.asin ((E.toNEU sc approxRecCoord).z /
          vnorm E (E.toNEU sc approxRecCoord)) ≤ CUTOFF_ELEVATION E) →
      BLUNDER_PICKER K < |vnorm E (Vec3.sub recCoord sc) - p1c| →
      processSat E nav receiverTime approxRecCoord recCoord recClockError
        prn p1c = .disposed .blunder ∧
      ∀ rest, buildSystem E nav receiverTime approxRecCoord recCoord
        recClockError ((prn, p1c) :: rest) =
        match buildSystem E nav receiverTime approxRecCoord recCoord
            recClockError rest with
        | .fatal r => .fatal r
        | .ok acc cd => .ok acc (cd + 1)) ∧
    (∀ (l : List (String × K)) (rows : List ((Fin 4 → K) × K × K)) (cd : Nat),
      buildSystem E nav receiverTime approxRecCoord recCoord recClockError l =
        .ok rows cd →
      rows = l.filterMap (acceptedOf E nav receiverTime approxRecCoord
        recCoord recClockError) ∧
      rows.length + cd = l.length) := by
  constructor
  · intro prn p1c cr t sc hp hnav hiter helev hblunder
    have h1 : processSat E nav receiverTime approxRecCoord recCoord
        recClockError prn p1c = .disposed .blunder := by
      rw [processSat_after_iter E nav receiverTime approxRecCoord recCoord
        recClockError prn p1c cr t sc hp hnav hiter, if_neg helev,
        if_pos hblunder]
    exact ⟨h1, buildSystem_disposed_head E nav receiverTime approxRecCoord
      recCoord recClockError prn p1c .blunder h1⟩
  · intro l
    induction l with
    | nil =>
      intro rows cd h
      have h' : BuildResult.ok ([] : List ((Fin 4 → K) × K × K)) 0 =
          BuildResult.ok rows cd := h
      obtain ⟨rfl, rfl⟩ := by simpa [BuildResult.ok.injEq] using h'.symm
      simp
    | cons q l ih =>
      intro rows cd h
      rw [buildSystem_cons E nav approxRecCoord receiverTime recCoord
        recClockError q l] at h
      cases hp : processSat E nav receiverTime approxRecCoord recCoord
          recClockError q.1 q.2 with
      | fatal r => rw [hp] at h; simp at h
      | disposed d =>
        rw [hp] at h
        cases hb : buildSystem E nav receiverTime approxRecCoord recCoord
            recClockError l with
        | fatal r => rw [hb] at h; simp at h
        | ok acc cd2 =>
          rw [hb] at h
          obtain ⟨rfl, hcd⟩ := by simpa [BuildResult.ok.injEq] using h
          obtain ⟨ha, hl⟩ := ih acc cd2 hb
          constructor
          · rw [List.filterMap_cons]
            have : acceptedOf E nav receiverTime approxRecCoord recCoord
                recClockError q = none := by
              simp [acceptedOf, hp]
            rw [this, ha]
          · simp only [List.length_cons]
            omega
      | accepted row b w =>
        rw [hp] at h
        cases hb : buildSystem E nav receiverTime approxRecCoord recCoord
            recClockError l with
        | fatal r => rw [hb] at h; simp at h
        | ok acc cd2 =>
          rw [hb] at h
          obtain ⟨hrows, hcd⟩ := by simpa [BuildResult.ok.injEq] using h
          obtain ⟨ha, hl⟩ := ih acc cd2 hb
          constructor
          · rw [List.filterMap_cons]
            have : acceptedOf E nav receiverTime approxRecCoord recCoord
                recClockError q = some (row, b, w) := by
              simp [acceptedOf, hp]
            rw [this, ← hrows, ha]
          · rw [← hrows]
            simp only [List.length_cons]
            omega

/-- C7: an accepted satellite populates one design-matrix row of the
direction cosines from satellite to receiver followed by `1`, one
observable `pseudorange − geometricRange + c · satClockCorrection` with the
clock correction the quadratic polynomial `a0 + a1·Δt + a2·Δt²` in
`Δt = transmissionTime − Toc` from the navigation record's coefficients,
and one weight `sin²(elevation)`. -/
theorem c7_accepted_row_contents (prn : String) (p1c : K)
    (cr : NavigationRecord K D) (t : K) (sc : Vec3 K)
    (hp : ¬ (p1c < E.eps))
    (hnav : nav receiverTime prn = some cr)
    (hiter : lightTimeIter E cr (cr.OmegaDOT * (p1c / E.c))
      (E.gpsSecond receiverTime) recClockError recCoord 100 0 (3 / 40) =
      some (t, sc))
    (helev : ¬ (E.asin ((E.toNEU sc approxRecCoord).z /
      vnorm E (E.toNEU sc approxRecCoord)) ≤ CUTOFF_ELEVATION E))
    (hblunder : ¬ (BLUNDER_PICKER K <
      |vnorm E (Vec3.sub recCoord sc) - p1c|)) :
    processSat E nav receiverTime approxRecCoord recCoord recClockError
      prn p1c =
      .accepted
        ![(recCoord.x - sc.x) / vnorm E (Vec3.sub recCoord sc),
          (recCoord.y - sc.y) / vnorm E (Vec3.sub recCoord sc),
          (recCoord.z - sc.z) / vnorm E (Vec3.sub recCoord sc), 1]
        (p1c - vnorm E (Vec3.sub recCoord sc) +
          E.c * (cr.a0 + cr.a1 * (t - E.gpsSecond cr.Toc) +
            cr.a2 * (t - E.gpsSecond cr.Toc) ^ 2))
        ((E.sin (E.asin ((E.toNEU sc approxRecCoord).z /
          vnorm E (E.toNEU sc approxRecCoord)))) ^ 2) := by
  rw [processSat_after_iter E nav receiverTime approxRecCoord recCoord
    recClockError prn p1c cr t sc hp hnav hiter, if_neg helev,
    if_neg hblunder]

/-- C10: a satellite whose first pseudorange observable is below the
missing-value epsilon is disposed before the ephemeris lookup is consulted:
its outcome is the same for every lookup — including a lookup with no
record for it — so it never produces the epoch-fatal missing-ephemeris
failure, and at the sweep level it only increments the disposed count. -/
theorem c10_missing_pseudorange_skipped (prn : String) (p1c : K)
    (hp : p1c < E.eps) :
    (∀ nav2 : D → String → Option (NavigationRecord K D),
      processSat E nav2 receiverTime approxRecCoord recCoord recClockError
        prn p1c = .disposed .missingPseudorange) ∧
    (∀ (nav2 : D → String → Option (NavigationRecord K D))
      (rest : List (String × K)),
      buildSystem E nav2 receiverTime approxRecCoord recCoord recClockError
        ((prn, p1c) :: rest) =
        match buildSystem E nav2 receiverTime approxRecCoord recCoord
            recClockError rest with
        | .fatal r => .fatal r
        | .ok acc cd => .ok acc (cd + 1)) := by
  have h1 : ∀ nav2 : D → String → Option (NavigationRecord K D),
      processSat E nav2 receiverTime approxRecCoord recCoord recClockError
        prn p1c = .disposed .missingPseudorange := by
    intro nav2
    unfold processSat
    rw [if_pos hp]
  exact ⟨h1, fun nav2 rest => buildSystem_disposed_head E nav2 receiverTime
    approxRecCoord recCoord recClockError prn p1c .missingPseudorange
    (h1 nav2) rest⟩

end ClaimLemmas

/-- C2: if a satellite with a usable pseudorange has no navigation record at
the receiver time (and the satellites before it in the epoch do not abort
the sweep — in particular they may all have valid records), the whole first
pass aborts and `computeReceiverPosition` fails for the whole epoch: the
satellite is not skipped individually. -/
theorem c2_missing_ephemeris_fatal {K D : Type} [LinearOrderedField K]
    (E : Ext K D) (nav : D → String → Option (NavigationRecord K D))
    (obs : ObservationRecord K D) (approxRecCoord : Vec3 K)
    (l1 l2 : List (String × K)) (pr : String × K)
    (hsplit : obs.listSatPRN.zip obs.pseudorange_C1C = l1 ++ pr :: l2)
    (hok : ∀ q ∈ l1, (processSat E nav obs.receiverTime approxRecCoord
      approxRecCoord 0 q.1 q.2).isFatal = false)
    (hp : ¬ (pr.2 < E.eps))
    (hnone : nav obs.receiverTime pr.1 = none) :
    computeReceiverPosition E nav obs approxRecCoord = none := by
  have hps : processSat E nav obs.receiverTime approxRecCoord approxRecCoord 0
      pr.1 pr.2 = .fatal .noEphemeris := by
    simp only [processSat, hnone, if_neg hp]
  have hb : buildSystem E nav obs.receiverTime approxRecCoord approxRecCoord 0
      (obs.listSatPRN.zip obs.pseudorange_C1C) = .fatal .noEphemeris := by
    rw [hsplit]
    exact buildSystem_fatal_of E nav approxRecCoord obs.receiverTime
      approxRecCoord 0 l1 pr l2 .noEphemeris hok hps
  exact compute_none_of_build_fatal E nav obs approxRecCoord .noEphemeris hb

/-- C3: the iteration caps are observable failures.  First conjunct: if all
100 outer iterations pass without converging or aborting, the solver
returns `none` rather than the current approximate estimate.  Second
conjunct: if, for a usable satellite with a navigation record (and
non-aborting satellites before it), the inner light-time trajectory never
meets the `1e-8` tolerance within its 100-iteration cap on the first pass,
the solver returns `none`. -/
theorem c3_iteration_caps_fail {K D : Type} [LinearOrderedField K]
    (E : Ext K D) (nav : D → String → Option (NavigationRecord K D))
    (obs : ObservationRecord K D) (approxRecCoord : Vec3 K) :
    ((iterStates E nav obs approxRecCoord 100).isSome = true →
      computeReceiverPosition E nav obs approxRecCoord = none) ∧
    (∀ (k : Nat) (s : SolveState K) (l1 l2 : List (String × K))
      (pr : String × K) (cr : NavigationRecord K D),
      k < 100 →
      iterStates E nav obs approxRecCoord k = some s →
      obs.listSatPRN.zip obs.pseudorange_C1C = l1 ++ pr :: l2 →
      (∀ q ∈ l1, (processSat E nav obs.receiverTime approxRecCoord
        s.recCoord s.recClockError q.1 q.2).isFatal = false) →
      ¬ (pr.2 < E.eps) →
      nav obs.receiverTime pr.1 = some cr →
      (∀ j, j < 100 →
        ¬ (|(innerSeq E cr (cr.OmegaDOT * (pr.2 / E.c))
              (E.gpsSecond obs.receiverTime) s.recClockError s.recCoord
              (j + 1)).1 -
            (innerSeq E cr (cr.OmegaDOT * (pr.2 / E.c))
              (E.gpsSecond obs.receiverTime) s.recClockError s.recCoord
              j).1| ≤ ITER_TOL K)) →
      computeReceiverPosition E nav obs approxRecCoord = none) := by
  constructor
  · intro h
    obtain ⟨s, hs⟩ := Option.isSome_iff_exists.mp h
    have h100 : outerLoop E nav obs approxRecCoord 100 ⟨approxRecCoord, 0⟩ =
        outerLoop E nav obs approxRecCoord 0 s :=
      outerLoop_shift E nav obs approxRecCoord 100 0 s hs
    show outerLoop E nav obs approxRecCoord 100 ⟨approxRecCoord, 0⟩ = none
    rw [h100]
    rfl
  · intro k s l1 l2 pr cr hk hreach hsplit hok hp hnav hmiss
    have hnone : lightTimeIter E cr (cr.OmegaDOT * (pr.2 / E.c))
        (E.gpsSecond obs.receiverTime) s.recClockError s.recCoord 100 0
        (3 / 40) = none := by
      have h := lightTimeIter_none_of_no_hit E cr
        (cr.OmegaDOT * (pr.2 / E.c)) (E.gpsSecond obs.receiverTime)
        s.recClockError s.recCoord 100 0
        (fun j hj => by simpa using hmiss j hj)
      exact h
    have hps : processSat E nav obs.receiverTime approxRecCoord
        s.recCoord s.recClockError pr.1 pr.2 = .fatal .innerDivergence := by
      simp only [processSat, hnav, hnone, if_neg hp]
    have hb : buildSystem E nav obs.receiverTime approxRecCoord
        s.recCoord s.recClockError (obs.listSatPRN.zip obs.pseudorange_C1C) =
        .fatal .innerDivergence := by
      rw [hsplit]
      exact buildSystem_fatal_of E nav approxRecCoord obs.receiverTime
        s.recCoord s.recClockError l1 pr l2 .innerDivergence hok hps
    have habort : stepFn E nav obs approxRecCoord s =
        .abort .innerDivergence := by
      unfold stepFn
      rw [hb]
    show outerLoop E nav obs approxRecCoord 100 ⟨approxRecCoord, 0⟩ = none
    have e1 : (100 : Nat) = k + (100 - k) := by omega
    rw [e1, outerLoop_shift E nav obs approxRecCoord k (100 - k) s hreach]
    obtain ⟨m, hm⟩ : ∃ m, 100 - k = m + 1 := ⟨99 - k, by omega⟩
    rw [hm]
    exact outerLoop_none_of_abort E nav obs approxRecCoord m s
      .innerDivergence habort

/-- C6 (amended): the transmission time of a satellite is computed by the
inner fixed-point iteration that starts from the delay seed `0.075` s and
transmission-time seed `0`, at each step sets the transmission time to
`receiverTime − receiverClockOffset − delay`, computes the (Earth-rotation
corrected) satellite position at that time, re-estimates the delay as
`‖correctedSatPos − currentReceiverEstimate‖ / c`, and stops at the first
step whose transmission-time change is at most `1e-8` s (at most — the
source stops when the change equals `1e-8` exactly), returning that step's
transmission time and corrected satellite position. -/
theorem c6_light_time_fixed_point {K D : Type} [LinearOrderedField K]
    (E : Ext K D) (cr : NavigationRecord K D)
    (angle recTimeF recClockError : K) (recCoord : Vec3 K)
    (t : K) (sc : Vec3 K) :
    lightTimeIter E cr angle recTimeF recClockError recCoord 100 0 (3 / 40) =
      some (t, sc) ↔
    ∃ j, j < 100 ∧
      (∀ m, m < j →
        ¬ (|(innerSeq E cr angle recTimeF recClockError recCoord (m + 1)).1 -
            (innerSeq E cr angle recTimeF recClockError recCoord m).1| ≤
            ITER_TOL K)) ∧
      |(innerSeq E cr angle recTimeF recClockError recCoord (j + 1)).1 -
        (innerSeq E cr angle recTimeF recClockError recCoord j).1| ≤
        ITER_TOL K ∧
      t = (innerSeq E cr angle recTimeF recClockError recCoord (j + 1)).1 ∧
      sc = rotApply E angle (E.satPos cr
        (innerSeq E cr angle recTimeF recClockError recCoord (j + 1)).1) := by
  have h := lightTimeIter_some_iff E cr angle recTimeF recClockError recCoord
    100 0 t sc
  simpa [show innerSeq E cr angle recTimeF recClockError recCoord 0 =
    (0, 3 / 40) from rfl] using h

/-- C6, counterexample to the claim as stated: under `ext6` the
transmission-time estimate changes by exactly `1e-8` s at the second
iteration; the source's iteration (`lightTimeIter`, stopping at change
`≤ 1e-8`) stops there, while the iteration described by the claim
(`lightTimeIterStrict`, repeating until the change is strictly less than
`1e-8`) continues and returns a different transmission time and satellite
position. -/
theorem c6_counterexample :
    lightTimeIter ext6 recM 0 10 0 v0 100 0 (3 / 40) =
      some (992500001 / 100000000, ⟨74999991 / 1000000000, 0, 0⟩) ∧
    lightTimeIterStrict ext6 recM 0 10 0 v0 100 0 (3 / 40) =
      some (9925000009 / 1000000000, ⟨1, 0, 0⟩) ∧
    |(992500001 / 100000000 : ℚ) - 397 / 40| = ITER_TOL ℚ := by
  refine ⟨by decide, by decide, by decide⟩

/-- C8: whenever an outer pass reaches the solve (the sweep succeeded and
the insufficiency guard did not fire), the 4-vector solution is
`(AᵗWA)⁻¹ · (AᵗW b)`, its first three components are added to the current
receiver ECEF estimate, and the fourth component divided by the speed of
light becomes the new receiver clock offset, replacing (not accumulating
onto) the prior clock offset. -/
theorem c8_normal_equations_update {K D : Type} [LinearOrderedField K]
    (E : Ext K D) (nav : D → String → Option (NavigationRecord K D))
    (obs : ObservationRecord K D) (approxRecCoord : Vec3 K)
    (s : SolveState K) (rows : List ((Fin 4 → K) × K × K)) (cd : Nat)
    (hbuild : buildSystem E nav obs.receiverTime approxRecCoord s.recCoord
      s.recClockError (obs.listSatPRN.zip obs.pseudorange_C1C) = .ok rows cd)
    (hguard : ¬ (0 < cd ∧ obs.listSatPRN.length - cd < 4)) :
    stepFn E nav obs approxRecCoord s =
      if vnorm E ⟨mulVec4 (E.inv4 (normalMatrix rows)) (atwb rows) 0,
          mulVec4 (E.inv4 (normalMatrix rows)) (atwb rows) 1,
          mulVec4 (E.inv4 (normalMatrix rows)) (atwb rows) 2⟩ < ITER_TOL K
      then .converged
        ⟨s.recCoord.x + mulVec4 (E.inv4 (normalMatrix rows)) (atwb rows) 0,
          s.recCoord.y + mulVec4 (E.inv4 (normalMatrix rows)) (atwb rows) 1,
          s.recCoord.z + mulVec4 (E.inv4 (normalMatrix rows)) (atwb rows) 2⟩
      else .next
        ⟨⟨s.recCoord.x + mulVec4 (E.inv4 (normalMatrix rows)) (atwb rows) 0,
          s.recCoord.y + mulVec4 (E.inv4 (normalMatrix rows)) (atwb rows) 1,
          s.recCoord.z + mulVec4 (E.inv4 (normalMatrix rows)) (atwb rows) 2⟩,
          mulVec4 (E.inv4 (normalMatrix rows)) (atwb rows) 3 / E.c⟩ := by
  simp only [stepFn, hbuild]
  rw [if_neg hguard]
  rfl

/-- C1, behavior of the code at the failing input: with exactly three
listed satellites, all usable (valid pseudorange, ephemeris found, above
the elevation cutoff, no blunder), the sweep succeeds with three rows and a
zero disposed count, so the `size - countDisposed < 4` check — nested under
`countDisposed > 0` — is skipped, the pass reaches the normal-equations
solve of the singular 3-row system, and (under the `extC1` interpretation
of the external matrix inverse) `computeReceiverPosition` returns a numeric
coordinate answer instead of failing. -/
theorem c1_three_usable_satellites_reach_solve :
    buildSystem extC1 navM () v0 v0 0
      (obsC1.listSatPRN.zip obsC1.pseudorange_C1C) =
      .ok [(![-1, 0, 0, 1], 5 / 2, 1), (![-1, 0, 0, 1], 5 / 2, 1),
        (![-1, 0, 0, 1], 5 / 2, 1)] 0 ∧
    computeReceiverPosition extC1 navM obsC1 v0 = some v0 := by
  refine ⟨by decide, by decide⟩

/-! ### Concrete instances of the claim theorems -/

/-- C2 at a concrete input: the first satellite `G01` has a usable
pseudorange and no navigation record while the other three satellites all
have records, and the whole epoch fails. -/
theorem c2_witness : computeReceiverPosition mExtA navC2 obsC2 v0 = none :=
  c2_missing_ephemeris_fatal mExtA navC2 obsC2 v0 []
    [(g02, 3), (g02, 3), (g02, 3)] (g01, 3) (by decide) (by simp)
    (by decide) (by decide)

set_option maxRecDepth 100000 in
/-- C3 at concrete inputs: under `mExtA` the outer loop oscillates through
all 100 allowed iterations and the solver fails; under `extB` the inner
light-time iteration never meets its tolerance and the solver fails. -/
theorem c3_witness :
    ((iterStates mExtA navM obsA v0 100).isSome = true ∧
      computeReceiverPosition mExtA navM obsA v0 = none) ∧
    computeReceiverPosition extB navM obsB v0 = none := by
  have hd : (iterStates mExtA navM obsA v0 100).isSome = true := by decide
  refine ⟨⟨hd, (c3_iteration_caps_fail mExtA navM obsA v0).1 hd⟩, ?_⟩
  exact (c3_iteration_caps_fail extB navM obsB v0).2 0 ⟨v0, 0⟩ [] [] (g01, 3)
    recM (by decide) (by decide) (by decide) (by simp) (by decide) (by decide)
    (by decide)

/-- C4 at a concrete input: under `extC4` the satellite's elevation is `0`,
below the cutoff `1/6`, and the satellite is disposed, contributing only a
disposed-count increment to the sweep. -/
theorem c4_witness :
    processSat extC4 navM () v0 v0 0 g01 3 = .disposed .lowElevation ∧
    buildSystem extC4 navM () v0 v0 0 [(g01, 3)] = .ok [] 1 := by
  have h := c4_low_elevation_disposed extC4 navM () v0 v0 0 g01 3 recM
    (797 / 80) ⟨1 / 2, 0, 0⟩ (by decide) (by decide) (by decide) (by decide)
  exact ⟨h.1, by rw [h.2 []]; decide⟩

/-- C5 at concrete inputs: a satellite whose pseudorange `10⁶` differs from
its geometric range `1/2` by more than `0.5e6` is disposed as a blunder;
and the successful sweep over `obsA` yields exactly the accepted rows in
order. -/
theorem c5_witness :
    (processSat mExtA navM () v0 v0 0 g01 1000000 = .disposed .blunder ∧
      buildSystem mExtA navM () v0 v0 0 [(g01, 1000000)] = .ok [] 1) ∧
    ([(![-1, 0, 0, 1], 5 / 2, 1), (![-1, 0, 0, 1], 5 / 2, 1),
        (![-1, 0, 0, 1], 5 / 2, 1), (![-1, 0, 0, 1], 5 / 2, 1)] =
      (obsA.listSatPRN.zip obsA.pseudorange_C1C).filterMap
        (acceptedOf mExtA navM () v0 v0 0) ∧
      ([(![-1, 0, 0, 1], (5 : ℚ) / 2, (1 : ℚ)), (![-1, 0, 0, 1], 5 / 2, 1),
        (![-1, 0, 0, 1], 5 / 2, 1), (![-1, 0, 0, 1], 5 / 2, 1)]).length + 0 =
      (obsA.listSatPRN.zip obsA.pseudorange_C1C).length) := by
  have ha := (c5_blunder_and_compaction mExtA navM () v0 v0 0).1 g01 1000000
    recM (797 / 80) ⟨1 / 2, 0, 0⟩ (by decide) (by decide) (by decide)
    (by decide) (by decide)
  have hb := (c5_blunder_and_compaction mExtA navM () v0 v0 0).2
    (obsA.listSatPRN.zip obsA.pseudorange_C1C)
    [(![-1, 0, 0, 1], 5 / 2, 1), (![-1, 0, 0, 1], 5 / 2, 1),
      (![-1, 0, 0, 1], 5 / 2, 1), (![-1, 0, 0, 1], 5 / 2, 1)] 0 (by decide)
  exact ⟨⟨ha.1, by rw [ha.2 []]; decide⟩, hb⟩

/-- C6 at a concrete input: under `mExtA` the inner iteration's change
first meets the tolerance at the third step (index `j = 2`), and the
iteration returns that step's transmission time `797/80` and satellite
position `(1/2, 0, 0)`. -/
theorem c6_witness :
    lightTimeIter mExtA recM 0 10 0 v0 100 0 (3 / 40) =
      some (797 / 80, ⟨1 / 2, 0, 0⟩) :=
  (c6_light_time_fixed_point mExtA recM 0 10 0 v0 (797 / 80)
    ⟨1 / 2, 0, 0⟩).mpr
    ⟨2, by decide, by decide, by decide, by decide, by decide⟩

/-- C7 at a concrete input: the accepted satellite of `mExtA` populates the
row `[-1, 0, 0, 1]`, the observable `5/2` and the weight `1`. -/
theorem c7_witness :
    processSat mExtA navM () v0 v0 0 g01 3 =
      .accepted ![-1, 0, 0, 1] (5 / 2) 1 := by
  rw [c7_accepted_row_contents mExtA navM () v0 v0 0 g01 3 recM (797 / 80)
    ⟨1 / 2, 0, 0⟩ (by decide) (by decide) (by decide) (by decide) (by decide)]
  decide

/-- C8 at a concrete input: the pass over `obsA` from the initial state
solves the normal equations to the correction `(1, 0, 0, 0)`, adds
`(1, 0, 0)` to the receiver estimate, and replaces the clock offset by
`0 / c = 0`. -/
theorem c8_witness :
    stepFn mExtA navM obsA v0 ⟨v0, 0⟩ = .next ⟨⟨1, 0, 0⟩, 0⟩ := by
  rw [c8_normal_equations_update mExtA navM obsA v0 ⟨v0, 0⟩
    [(![-1, 0, 0, 1], 5 / 2, 1), (![-1, 0, 0, 1], 5 / 2, 1),
      (![-1, 0, 0, 1], 5 / 2, 1), (![-1, 0, 0, 1], 5 / 2, 1)] 0
    (by decide) (by decide)]
  decide

/-- C10 at a concrete input: with `EPS = 1`, a satellite with pseudorange
`1/2` is disposed as missing-measurement even though the lookup has no
record for it, and the sweep only counts it as disposed. -/
theorem c10_witness :
    processSat extC10 navNone () v0 v0 0 g01 (1 / 2) =
      .disposed .missingPseudorange ∧
    buildSystem extC10 navNone () v0 v0 0 [(g01, 1 / 2)] = .ok [] 1 := by
  have h := c10_missing_pseudorange_skipped extC10 () v0 v0 0 g01 (1 / 2)
    (by decide)
  exact ⟨h.1 navNone, by rw [h.2 navNone []]; decide⟩

end Gnss
